import Mathlib

/-!
Verification of the intent-classification and financial-calculation core of
the finance-chatbot application (`src/app.py`).

The Python source is shallowly embedded: pure functions become Lean
functions over `String`, `ℚ`, `ℤ` and lists; the session state touched by
`generate_response` (`last_request_time`, `messages`) is passed and
returned explicitly; the single wall-clock reading used by a call is a
`now : ℚ` parameter; the outcome of the external HTTP call inside
`get_groq_response` is an explicit `GroqOutcome` value (the network is the
only non-determinism, so the function body is otherwise translated
verbatim).  Python `round(x, 2)` on floats is modelled as exact rational
rounding to two decimals.
-/

/-- Python `str.lower()` (ASCII case folding, which covers every string in the source). -/
def pyLower (s : String) : String := String.mk (s.toList.map Char.toLower)

/-- Drop leading whitespace characters from a character list. -/
def dropLeadingWs : List Char → List Char
  | [] => []
  | c :: rest => if c.isWhitespace then dropLeadingWs rest else c :: rest

/-- Python `str.strip()` with no argument: drop leading/trailing whitespace. -/
def pyStrip (s : String) : String :=
  String.mk ((dropLeadingWs (dropLeadingWs s.toList.reverse).reverse))

/-- `listInfixOf pat l` decides whether `pat` occurs contiguously inside `l`. -/
def listInfixOf (pat : List Char) : List Char → Bool
  | [] => pat.isEmpty
  | c :: rest => pat.isPrefixOf (c :: rest) || listInfixOf pat rest

/-- Python `sub in s` on strings: contiguous-substring containment. -/
def pyContains (s sub : String) : Bool := listInfixOf sub.toList s.toList

/-- Accumulator-style whitespace tokenizer: `cur` is the (reversed) token in progress. -/
def wsTokensGo (cur : List Char) : List Char → List (List Char)
  | [] => if cur.isEmpty then [] else [cur.reverse]
  | c :: rest =>
    if c.isWhitespace then
      if cur.isEmpty then wsTokensGo [] rest
      else cur.reverse :: wsTokensGo [] rest
    else wsTokensGo (c :: cur) rest

/-- Python `str.split()` with no argument: split on whitespace runs, no empty tokens. -/
def pySplit (s : String) : List String :=
  (wsTokensGo [] s.toList).map String.mk

/-- The greeting token list of `detect_intent` (src/app.py line 74). -/
def greetings : List String :=
  ["hi", "hello", "hey", "good morning", "good evening", "good afternoon", "namaste", "hola"]

/-- The gratitude token list of `detect_intent` (line 79). -/
def thanks : List String := ["thank", "thanks", "thank you", "appreciate", "helpful"]

/-- The casual-smalltalk phrase list of `detect_intent` (line 84). -/
def casual : List String :=
  ["how are you", "what\x27s up", "whats up", "who are you", "your name"]

/-- `detect_intent` (src/app.py lines 69-110), translated clause by clause:
normalize, then greeting (token containment and at most 3 whitespace tokens),
gratitude, casual, then the ten topic keyword checks in source order,
defaulting to `general`. -/
def detect_intent (query : String) : String :=
  let query_lower := pyStrip (pyLower query)
  if greetings.any (fun greet => pyContains query_lower greet)
      && (pySplit query_lower).length ≤ 3 then "greeting"
  else if thanks.any (fun word => pyContains query_lower word) then "gratitude"
  else if casual.any (fun phrase => pyContains query_lower phrase) then "casual"
  else if ["sip", "systematic investment", "monthly investment"].any
      (fun word => pyContains query_lower word) then "sip"
  else if ["tax", "80c", "deduction", "save tax"].any
      (fun word => pyContains query_lower word) then "tax"
  else if ["stock", "share", "equity", "nifty", "sensex"].any
      (fun word => pyContains query_lower word) then "stocks"
  else if ["retire", "retirement", "pension"].any
      (fun word => pyContains query_lower word) then "retirement"
  else if ["risk", "safe", "conservative", "aggressive"].any
      (fun word => pyContains query_lower word) then "risk"
  else if ["emi", "loan", "debt", "credit"].any
      (fun word => pyContains query_lower word) then "debt"
  else if ["budget", "save", "saving", "expense"].any
      (fun word => pyContains query_lower word) then "budget"
  else if ["insurance", "term", "health insurance"].any
      (fun word => pyContains query_lower word) then "insurance"
  else if ["mutual fund", "mf", "fund"].any
      (fun word => pyContains query_lower word) then "mutual_fund"
  else if ["emergency", "emergency fund", "contingency"].any
      (fun word => pyContains query_lower word) then "emergency"
  else "general"

/-- `get_knowledge_base` (src/app.py lines 50-63): the static topic → fact table,
as an association list in source order.  Note the key `"mutual fund"` is written
with a space in the source. -/
def get_knowledge_base : List (String × String) :=
  [("sip", "SIP invests fixed amounts regularly in mutual funds. Best returns: Mid/Small-cap 15-20%. Start with ₹1,000/month."),
   ("risk", "Conservative: Debt funds 5-7%. Moderate: Hybrid 8-12%. Aggressive: Equity 12-20%."),
   ("emergency", "Emergency fund: 6-12 months expenses in liquid funds. Build before investing."),
   ("tax", "80C: ELSS ₹1.5L (3-year lock), PPF 7.1%, NPS +₹50k. ELSS best for growth."),
   ("stocks", "NIFTY 50: Top 50 companies. SENSEX: Top 30. Average 12-14% long-term."),
   ("retirement", "Rule of 72: 72÷return = years to double. Invest 15-20% income. Target: 25-30x expenses."),
   ("debt", "50-30-20 rule. Pay high-interest first. Credit card 36-42%, Personal 10-16%, Home 8-9%."),
   ("gold", "Options: Physical, ETFs (0.5-1% cost), SGBs (2.5% interest). 9-10% returns."),
   ("mutual fund", "Equity (high risk 12-20%), Debt (low risk 5-7%), Hybrid (balanced 8-12%)."),
   ("budget", "50-30-20: 50% needs, 30% wants, 20% savings. Track monthly."),
   ("insurance", "Term: 10-15x income. Health: Min ₹5L. Keep insurance & investment separate.")]

/-- `get_quick_response` (src/app.py lines 112-119): the canned replies for
`greeting`, `gratitude` and `casual`; `dict.get` on any other intent is `none`.
The `query` argument is accepted and ignored, as in the source. -/
def get_quick_response (intent : String) (_query : String) : Option String :=
  List.lookup intent
    [("greeting", "Hey there! 👋 Great to see you! I\x27m Finny, your finance buddy. Whether you\x27re looking to start investing, save on taxes, or just figure out where your money should go - I\x27m here to help! What\x27s on your mind today?"),
     ("gratitude", "You\x27re very welcome! 😊 I\x27m really glad I could help. Feel free to come back anytime you have questions about your finances. Wishing you great returns and smart money decisions! 💰"),
     ("casual", "I\x27m Finny, your friendly neighborhood finance advisor! 🤓 I specialize in Indian markets and love helping people make smart money moves. I\x27m doing great, thanks for asking! Now, let\x27s talk about YOUR finances - what would you like to know?")]

/-- Python truthiness of the `API_KEY` global: `None` and the empty string are falsy. -/
def apiKeyPresent : Option String → Bool
  | none => false
  | some s => !(s == "")

/-- The payload of a parsed HTTP response body from the external service:
`errorMessage` models the nested `get` of the error message field, and
`choices` holds the `choices[i]["message"]["content"]` strings. -/
structure GroqBody where
  errorMessage : Option String
  choices : List String
deriving DecidableEq, Repr

/-- The possible outcomes of the `requests.post` call inside
`get_groq_response`, matching the `except` clauses of src/app.py lines
197-221: an HTTP response with a status, raw text and parsed body; a
`requests.exceptions.Timeout`; another `requests.exceptions.RequestException`;
a `KeyError`/`IndexError` while extracting fields; or any other exception
(this also covers a JSON-decode failure, which Python raises as `ValueError`
and the generic handler catches). -/
inductive GroqOutcome where
  | httpResponse (status : Nat) (text : String) (body : GroqBody)
  | timeout
  | connError
  | keyIndexError
  | otherExc (msg : String)
deriving DecidableEq, Repr

/-- `get_groq_response` (src/app.py lines 122-221).  The request assembly
(system prompt, persona instruction, last-6-turn context) only feeds the
network payload, so it does not influence the returned text here; the network
outcome is the explicit `outcome` argument.  Every branch of the Python
`try`/`except` becomes a branch of this total function — no outcome escapes
without producing a string. -/
def get_groq_response (apiKey : Option String) (outcome : GroqOutcome) : String :=
  if !(apiKeyPresent apiKey) then
    "⚠️ GROQ API key not configured. Please add it to .streamlit/secrets.toml"
  else
    match outcome with
    | .httpResponse status text body =>
      if status ≠ 200 then
        let error_msg := if text ≠ "" then body.errorMessage.getD "Unknown error"
                         else "Unknown error"
        "⚠️ GROQ API Error (" ++ toString status ++ "): " ++ error_msg
      else if body.choices ≠ [] then body.choices.headD ""
      else "I\x27m having trouble generating a response right now. Please try rephrasing your question!"
    | .timeout => "⚠️ Request timed out. Please try again."
    | .connError => "⚠️ Connection error. Please check your internet and try again."
    | .keyIndexError => "⚠️ Unexpected response format. Please try again."
    | .otherExc msg => "⚠️ Error: " ++ msg

/-- `generate_response` (src/app.py lines 223-245), with the session state
passed explicitly: `now` is the single wall-clock reading of the call,
`last_request_time` the stored timestamp, and the returned pair is
(response text, new `last_request_time`).  The conversation history
(`_messages`) is truncated to the last 6 turns and sent to the external
service in the source; it does not affect the returned text in this model
because the service outcome is the `outcome` oracle. -/
def generate_response (apiKey : Option String) (outcome : GroqOutcome) (now : ℚ)
    (query : String) (_messages : List (String × String)) (last_request_time : ℚ) :
    String × ℚ :=
  if now - last_request_time < 2 then
    ("⚠️ Please wait 2 seconds between messages.", last_request_time)
  else
    let intent := detect_intent query
    if apiKeyPresent apiKey then
      match get_quick_response intent query with
      | some quick_resp => (quick_resp, now)
      | none => (get_groq_response apiKey outcome, now)
    else
      let context := (List.lookup intent get_knowledge_base).getD
          "AI unavailable. Use sidebar tools for calculations."
      ("AI unavailable.\n\n" ++ context ++ "\n\n💡 Use sidebar tools or configure GROQ API key.", now)

/-- Round a rational to the nearest integer, ties to the even integer —
the rounding mode of the Python built-in `round`. -/
def roundHalfEven (y : ℚ) : ℤ :=
  let f : ℤ := ⌊y⌋
  if y - f < 1/2 then f
  else if y - f > 1/2 then f + 1
  else if f % 2 = 0 then f else f + 1

/-- Python `round(x, 2)` modelled exactly over ℚ: round `100 x` to the
nearest integer (ties to even), then divide by 100. -/
def round2 (x : ℚ) : ℚ := (roundHalfEven (x * 100) : ℚ) / 100

/-- Result record of `calc_sip` (src/app.py lines 279-291). -/
structure SipResult where
  fv : ℚ
  invested : ℚ
  returns : ℚ
  pct : ℚ
deriving DecidableEq, Repr

/-- `calc_sip` (src/app.py lines 279-291): `months = years*12`,
`r = rate/1200`, future value by the annuity-due formula when `r > 0` and
`monthly*months` otherwise; the percentage guard `if invested else 0` is
Python truthiness of `invested`. -/
def calc_sip (monthly rate : ℚ) (years : ℕ) : SipResult :=
  let months : ℕ := years * 12
  let r : ℚ := rate / 1200
  let fv : ℚ := if r > 0 then monthly * (((1 + r) ^ months - 1) / r) * (1 + r)
                else monthly * months
  let invested : ℚ := monthly * months
  let returns : ℚ := fv - invested
  { fv := round2 fv, invested := round2 invested, returns := round2 returns,
    pct := if invested ≠ 0 then round2 (returns / invested * 100) else 0 }

/-- `assess_risk` (src/app.py lines 306-313): sum the answer values and
bucket the score.  The answers dict is an association list; `answers.values()`
is the list of second components. -/
def assess_risk (answers : List (String × ℤ)) :
    String × String × List (String × ℤ) :=
  let score := (answers.map Prod.snd).sum
  if score ≤ 10 then
    ("Conservative", "Debt funds/FDs (5-7%)", [("Debt", 70), ("Equity", 20), ("Gold", 10)])
  else if score ≤ 20 then
    ("Moderate", "Hybrid/Index funds (8-12%)", [("Debt", 40), ("Equity", 45), ("Gold", 15)])
  else
    ("Aggressive", "Equity funds (12-20%)", [("Debt", 20), ("Equity", 70), ("Other", 10)])

/-- The unrounded future value computed inside `calc_sip`, named so the
rounded record fields can be related to it. -/
def sipRawFv (monthly rate : ℚ) (years : ℕ) : ℚ :=
  let r : ℚ := rate / 1200
  if r > 0 then monthly * (((1 + r) ^ (years * 12) - 1) / r) * (1 + r)
  else monthly * (years * 12 : ℕ)

/-- The ordered topic rule table of `detect_intent` (src/app.py lines 89-108),
in source order; used to state that the classifier is a first-match scan of
this priority list. -/
def topicRules : List (String × List String) :=
  [("sip", ["sip", "systematic investment", "monthly investment"]),
   ("tax", ["tax", "80c", "deduction", "save tax"]),
   ("stocks", ["stock", "share", "equity", "nifty", "sensex"]),
   ("retirement", ["retire", "retirement", "pension"]),
   ("risk", ["risk", "safe", "conservative", "aggressive"]),
   ("debt", ["emi", "loan", "debt", "credit"]),
   ("budget", ["budget", "save", "saving", "expense"]),
   ("insurance", ["insurance", "term", "health insurance"]),
   ("mutual_fund", ["mutual fund", "mf", "fund"]),
   ("emergency", ["emergency", "emergency fund", "contingency"])]

/-- Spec-side reading of §4.1 step 5: scan the priority list and return the
first topic whose keyword set has a substring match, else `general`. -/
def firstTopicMatch (n : String) : String :=
  ((topicRules.find? (fun rule => rule.2.any (fun word => pyContains n word))).map
    Prod.fst).getD "general"

/-! ## Theorems -/

/-- C6: for every answers mapping whose values sum to `score`, `assess_risk`
returns the Conservative profile (allocation Debt 70 / Equity 20 / Gold 10)
when `score ≤ 10`, Moderate (Debt 40 / Equity 45 / Gold 15) when
`10 < score ≤ 20` and Aggressive (Debt 20 / Equity 70 / Other 10) when
`score > 20`; in particular a score of 10 is Conservative, 11 is Moderate and
20 is Moderate. -/
theorem assess_risk_buckets (answers : List (String × ℤ)) (score : ℤ)
    (hs : (answers.map Prod.snd).sum = score) :
    (score ≤ 10 → assess_risk answers =
      ("Conservative", "Debt funds/FDs (5-7%)", [("Debt", 70), ("Equity", 20), ("Gold", 10)])) ∧
    (10 < score → score ≤ 20 → assess_risk answers =
      ("Moderate", "Hybrid/Index funds (8-12%)", [("Debt", 40), ("Equity", 45), ("Gold", 15)])) ∧
    (20 < score → assess_risk answers =
      ("Aggressive", "Equity funds (12-20%)", [("Debt", 20), ("Equity", 70), ("Other", 10)])) ∧
    (assess_risk [("q1", 2), ("q2", 2), ("q3", 2), ("q4", 2), ("q5", 2)]).1 = "Conservative" ∧
    (assess_risk [("q1", 3), ("q2", 2), ("q3", 2), ("q4", 2), ("q5", 2)]).1 = "Moderate" ∧
    (assess_risk [("q1", 4), ("q2", 4), ("q3", 4), ("q4", 4), ("q5", 4)]).1 = "Moderate" := by
  refine ⟨?_, ?_, ?_, by decide, by decide, by decide⟩
  · intro h
    simp only [assess_risk, hs]
    rw [if_pos h]
  · intro h1 h2
    simp only [assess_risk, hs]
    rw [if_neg (by omega), if_pos h2]
  · intro h
    simp only [assess_risk, hs]
    rw [if_neg (by omega), if_neg (by omega)]

/-- Witness for `assess_risk_buckets` at a concrete answers list with sum 5. -/
theorem assess_risk_buckets_witness :
    assess_risk [("q1", 1), ("q2", 1), ("q3", 1), ("q4", 1), ("q5", 1)] =
      ("Conservative", "Debt funds/FDs (5-7%)", [("Debt", 70), ("Equity", 20), ("Gold", 10)]) :=
  (assess_risk_buckets [("q1", 1), ("q2", 1), ("q3", 1), ("q4", 1), ("q5", 1)] 5
    (by decide)).1 (by decide)

/-- C10: `assess_risk` classifies every integer-valued answers mapping into
one of the three profiles (the three branches cover all integer scores), and
in every returned profile the allocation percentages sum to exactly 100. -/
theorem assess_risk_total_and_alloc_sum (answers : List (String × ℤ)) :
    (((assess_risk answers).2.2.map Prod.snd).sum = 100) ∧
    ((assess_risk answers).1 = "Conservative" ∨ (assess_risk answers).1 = "Moderate" ∨
      (assess_risk answers).1 = "Aggressive") := by
  simp only [assess_risk]
  split_ifs <;> exact ⟨by decide, by simp⟩

/-- C3: for every session state and call, if the elapsed time since
`last_request_time` is below 2 seconds the composer returns the rate-limit
warning and leaves the timestamp unchanged; in every non-rate-limited branch
the timestamp is updated to the current time. -/
theorem generate_response_rate_limit (apiKey : Option String) (outcome : GroqOutcome)
    (now t0 : ℚ) (query : String) (messages : List (String × String)) :
    (now - t0 < 2 →
      generate_response apiKey outcome now query messages t0 =
        ("⚠️ Please wait 2 seconds between messages.", t0)) ∧
    (¬(now - t0 < 2) →
      (generate_response apiKey outcome now query messages t0).2 = now) := by
  constructor
  · intro h
    simp only [generate_response]
    rw [if_pos h]
  · intro h
    simp only [generate_response]
    rw [if_neg h]
    rcases hk : apiKeyPresent apiKey with _ | _
    · simp [hk]
    · rcases hq : get_quick_response (detect_intent query) query with _ | q <;> simp [hk, hq]

/-- Witness for `generate_response_rate_limit`: elapsed 1 s is blocked with the
timestamp kept at 0; elapsed 5 s updates the timestamp to the call time. -/
theorem generate_response_rate_limit_witness :
    generate_response none .timeout 1 "hello there friend" [] 0 =
      ("⚠️ Please wait 2 seconds between messages.", 0) ∧
    (generate_response none .timeout 5 "hello there friend" [] 0).2 = 5 :=
  ⟨(generate_response_rate_limit none .timeout 1 0 "hello there friend" []).1 (by norm_num),
   (generate_response_rate_limit none .timeout 5 0 "hello there friend" []).2 (by norm_num)⟩

/-- C8: with the API key configured, every outcome of the delegated HTTP call
is converted into a human-readable string — a dedicated message per failure
class (timeout, connection error, malformed field structure, other exception,
non-success HTTP status, empty choices list) — and the fixed messages are
pairwise distinct.  `get_groq_response` is a total function, so no outcome
escapes as an exception. -/
theorem get_groq_response_failure_classes (apiKey : Option String)
    (hk : apiKeyPresent apiKey = true) :
    get_groq_response apiKey .timeout = "⚠️ Request timed out. Please try again." ∧
    get_groq_response apiKey .connError =
      "⚠️ Connection error. Please check your internet and try again." ∧
    get_groq_response apiKey .keyIndexError =
      "⚠️ Unexpected response format. Please try again." ∧
    (∀ msg, get_groq_response apiKey (.otherExc msg) = "⚠️ Error: " ++ msg) ∧
    (∀ status text body, status ≠ 200 →
      get_groq_response apiKey (.httpResponse status text body) =
        "⚠️ GROQ API Error (" ++ toString status ++ "): " ++
          (if text ≠ "" then body.errorMessage.getD "Unknown error" else "Unknown error")) ∧
    (∀ text body, body.choices = [] →
      get_groq_response apiKey (.httpResponse 200 text body) =
        "I\x27m having trouble generating a response right now. Please try rephrasing your question!") ∧
    List.Pairwise (fun a b => a ≠ b)
      ["⚠️ Please wait 2 seconds between messages.",
       "⚠️ Request timed out. Please try again.",
       "⚠️ Connection error. Please check your internet and try again.",
       "⚠️ Unexpected response format. Please try again.",
       "I\x27m having trouble generating a response right now. Please try rephrasing your question!"] := by
  refine ⟨?_, ?_, ?_, ?_, ?_, ?_, by decide⟩
  · simp [get_groq_response, hk]
  · simp [get_groq_response, hk]
  · simp [get_groq_response, hk]
  · intro msg; simp [get_groq_response, hk]
  · intro status text body h
    simp only [get_groq_response, hk, Bool.not_true, Bool.false_eq_true, if_false]
    rw [if_pos h]
  · intro text body h
    simp [get_groq_response, hk, h]

/-- Witness for `get_groq_response_failure_classes` at the key "k". -/
theorem get_groq_response_failure_classes_witness :
    apiKeyPresent (some "k") = true ∧
    get_groq_response (some "k") .timeout = "⚠️ Request timed out. Please try again." :=
  ⟨by decide, (get_groq_response_failure_classes (some "k") (by decide)).1⟩

/-- C1 counterexample: with the external service NOT configured and no rate
limit in effect (elapsed 10 s), the query "hi" classifies as `greeting` yet
`generate_response` returns the AI-unavailable fallback text, not the canned
greeting reply — the canned-reply check is nested inside the `if API_KEY`
branch, so it does not fire when the key is absent. -/
theorem generate_response_greeting_without_key_cex :
    detect_intent "hi" = "greeting" ∧
    ¬((10:ℚ) - 0 < 2) ∧
    (generate_response none .timeout 10 "hi" [] 0).1 =
      "AI unavailable.\n\nAI unavailable. Use sidebar tools for calculations.\n\n💡 Use sidebar tools or configure GROQ API key." ∧
    (generate_response none .timeout 10 "hi" [] 0).1 ≠
      "Hey there! 👋 Great to see you! I\x27m Finny, your finance buddy. Whether you\x27re looking to start investing, save on taxes, or just figure out where your money should go - I\x27m here to help! What\x27s on your mind today?" := by
  have h : ¬((10:ℚ) - 0 < 2) := by norm_num
  refine ⟨by decide, h, ?_, ?_⟩ <;>
    · rw [generate_response, if_neg h]
      decide

/-- C1 amended: canned replies for `greeting` / `gratitude` / `casual` are
returned exactly when the API key is configured (and the call is not
rate-limited); when the key is absent those topics fall through to the
AI-unavailable knowledge-base fallback, which for these three topics is the
generic fallback text since they have no knowledge-base entry. -/
theorem generate_response_quick_reply_policy :
    (∀ (apiKey : Option String) (outcome : GroqOutcome) (now t0 : ℚ) (query : String)
      (messages : List (String × String)) (reply : String),
      apiKeyPresent apiKey = true → ¬(now - t0 < 2) →
      get_quick_response (detect_intent query) query = some reply →
      generate_response apiKey outcome now query messages t0 = (reply, now)) ∧
    (∀ (outcome : GroqOutcome) (now t0 : ℚ) (query : String)
      (messages : List (String × String)),
      ¬(now - t0 < 2) →
      (detect_intent query = "greeting" ∨ detect_intent query = "gratitude" ∨
        detect_intent query = "casual") →
      (generate_response none outcome now query messages t0).1 =
        "AI unavailable.\n\nAI unavailable. Use sidebar tools for calculations.\n\n💡 Use sidebar tools or configure GROQ API key.") := by
  constructor
  · intro apiKey outcome now t0 query messages reply hk hrl hq
    simp only [generate_response]
    rw [if_neg hrl]
    simp [hk, hq]
  · intro outcome now t0 query messages hrl hint
    simp only [generate_response]
    rw [if_neg hrl]
    rcases hint with h | h | h <;> simp [h, apiKeyPresent] <;> decide

set_option maxRecDepth 8192 in
/-- Witness for `generate_response_quick_reply_policy`: with key "k" the query
"hi" gets the canned greeting; with no key the same query gets the fallback. -/
theorem generate_response_quick_reply_policy_witness :
    generate_response (some "k") .timeout 5 "hi" [] 0 =
      ("Hey there! 👋 Great to see you! I\x27m Finny, your finance buddy. Whether you\x27re looking to start investing, save on taxes, or just figure out where your money should go - I\x27m here to help! What\x27s on your mind today?", 5) ∧
    (generate_response none .timeout 5 "hi" [] 0).1 =
      "AI unavailable.\n\nAI unavailable. Use sidebar tools for calculations.\n\n💡 Use sidebar tools or configure GROQ API key." :=
  ⟨generate_response_quick_reply_policy.1 (some "k") .timeout 5 0 "hi" []
      "Hey there! 👋 Great to see you! I\x27m Finny, your finance buddy. Whether you\x27re looking to start investing, save on taxes, or just figure out where your money should go - I\x27m here to help! What\x27s on your mind today?"
      (by decide) (by norm_num) (by decide),
   generate_response_quick_reply_policy.2 .timeout 5 0 "hi" []
      (by norm_num) (Or.inl (by decide))⟩

/-- C2 divergence witness: the query "mutual fund" classifies as
`mutual_fund`, but the knowledge base has no key `"mutual_fund"` — its entry
is keyed `"mutual fund"` with a space — so the unavailable-service response
carries the generic fallback rather than the mutual-fund fact. -/
theorem knowledge_base_mutual_fund_divergence :
    detect_intent "mutual fund" = "mutual_fund" ∧
    List.lookup "mutual_fund" get_knowledge_base = none ∧
    List.lookup "mutual fund" get_knowledge_base =
      some "Equity (high risk 12-20%), Debt (low risk 5-7%), Hybrid (balanced 8-12%)." ∧
    (generate_response none .timeout 10 "mutual fund" [] 0).1 =
      "AI unavailable.\n\nAI unavailable. Use sidebar tools for calculations.\n\n💡 Use sidebar tools or configure GROQ API key." := by
  have h : ¬((10:ℚ) - 0 < 2) := by norm_num
  refine ⟨by decide, by decide, by decide, ?_⟩
  rw [generate_response, if_neg h]
  decide

/-- C7: for monthly `m > 0`, annual rate `r ≥ 0` and `y > 0` years,
`calc_sip` uses `months = y*12` and `monthly_rate = r/1200`, yields
`future_value = m*months` when the monthly rate is zero and the annuity-due
formula otherwise, with `invested = m*months`,
`returns = future_value - invested` and
`return_pct = returns/invested*100` (and 0 whenever `invested = 0`);
in particular `calc_sip 1000 0 1` gives future value = invested = 12000,
returns 0 and percentage 0.  All outputs carry the 2-decimal rounding of the
source. -/
theorem calc_sip_formula (m r : ℚ) (y : ℕ) (hm : 0 < m) (hr : 0 ≤ r) (hy : 0 < y) :
    (calc_sip m r y).invested = round2 (m * (y * 12 : ℕ)) ∧
    (r / 1200 = 0 → (calc_sip m r y).fv = round2 (m * (y * 12 : ℕ))) ∧
    (r / 1200 ≠ 0 → (calc_sip m r y).fv =
      round2 (m * (((1 + r / 1200) ^ (y * 12) - 1) / (r / 1200)) * (1 + r / 1200))) ∧
    (calc_sip m r y).returns = round2 (sipRawFv m r y - m * (y * 12 : ℕ)) ∧
    (calc_sip m r y).pct =
      round2 ((sipRawFv m r y - m * (y * 12 : ℕ)) / (m * (y * 12 : ℕ)) * 100) ∧
    (calc_sip m r 0).pct = 0 ∧
    calc_sip 1000 0 1 = ⟨12000, 12000, 0, 0⟩ := by
  have hinv : m * ((y * 12 : ℕ) : ℚ) ≠ 0 := by
    have h12 : (0:ℚ) < ((y * 12 : ℕ) : ℚ) := by
      exact_mod_cast Nat.mul_pos hy (by norm_num)
    exact (mul_pos hm h12).ne'
  refine ⟨rfl, ?_, ?_, rfl, ?_, ?_, ?_⟩
  · intro h0
    simp only [calc_sip]
    rw [if_neg (by rw [h0]; exact lt_irrefl 0)]
  · intro hne
    have hpos : 0 < r / 1200 :=
      lt_of_le_of_ne (div_nonneg hr (by norm_num)) (Ne.symm hne)
    simp only [calc_sip]
    rw [if_pos hpos]
  · simp only [calc_sip]
    rw [if_pos hinv]
    rfl
  · simp [calc_sip]
  · norm_num [calc_sip, round2, roundHalfEven]

/-- Witness for `calc_sip_formula` at the zero-rate input (1000, 0, 1 year). -/
theorem calc_sip_formula_witness :
    (calc_sip 1000 0 1).fv = round2 (1000 * ((1 * 12 : ℕ) : ℚ)) :=
  (calc_sip_formula 1000 0 1 (by norm_num) (by norm_num) (by norm_num)).2.1 (by norm_num)

/-- Helper: an if-then-else differs from `x` when both branches do. -/
theorem ite_branch_ne {c : Prop} [Decidable c] {α : Type} {a b x : α}
    (ha : a ≠ x) (hb : b ≠ x) : (if c then a else b) ≠ x := by
  by_cases h : c
  · simpa [h] using ha
  · simpa [h] using hb

/-- C5: the classifier returns `greeting` exactly when the normalized
(lowercased, stripped) query contains a greeting token and splits into at
most 3 whitespace tokens; "hi" is a greeting, while
"hi, I want to discuss my SIP in detail today" has more than 3 tokens and
falls through to `sip`. -/
theorem detect_intent_greeting_iff (q : String) :
    (detect_intent q = "greeting" ↔
      (greetings.any (fun greet => pyContains (pyStrip (pyLower q)) greet) = true ∧
        (pySplit (pyStrip (pyLower q))).length ≤ 3)) ∧
    detect_intent "hi" = "greeting" ∧
    detect_intent "hi, I want to discuss my SIP in detail today" = "sip" := by
  refine ⟨?_, by decide, by decide⟩
  by_cases hcond : (greetings.any (fun greet => pyContains (pyStrip (pyLower q)) greet)
      && decide ((pySplit (pyStrip (pyLower q))).length ≤ 3)) = true
  · have hg : detect_intent q = "greeting" := by
      simp only [detect_intent]
      rw [if_pos hcond]
    exact ⟨fun _ => by simpa [Bool.and_eq_true, decide_eq_true_eq] using hcond,
           fun _ => hg⟩
  · have hg : detect_intent q ≠ "greeting" := by
      simp only [detect_intent]
      rw [if_neg hcond]
      exact ite_branch_ne (by decide) (ite_branch_ne (by decide) (ite_branch_ne (by decide)
        (ite_branch_ne (by decide) (ite_branch_ne (by decide) (ite_branch_ne (by decide)
        (ite_branch_ne (by decide) (ite_branch_ne (by decide) (ite_branch_ne (by decide)
        (ite_branch_ne (by decide) (ite_branch_ne (by decide) (ite_branch_ne (by decide)
        (by decide))))))))))))
    constructor
    · exact fun h => absurd h hg
    · intro hab
      exact absurd (by simp only [Bool.and_eq_true, decide_eq_true_eq]; exact hab) hcond

/-- Witness for `detect_intent_greeting_iff`: the iff applied at "hello". -/
theorem detect_intent_greeting_iff_witness : detect_intent "hello" = "greeting" :=
  (detect_intent_greeting_iff "hello").1.mpr ⟨by decide, by decide⟩

/-- C9: greeting-token matching is plain substring containment, not word
matching: any normalized query that contains a greeting token anywhere (even
inside a longer word) and has at most 3 whitespace tokens classifies as
`greeting`; concretely "which fund" contains "hi" inside "which", so it is
classified `greeting` and not `mutual_fund`. -/
theorem detect_intent_greeting_substring :
    (∀ q : String,
      greetings.any (fun greet => pyContains (pyStrip (pyLower q)) greet) = true →
      (pySplit (pyStrip (pyLower q))).length ≤ 3 →
      detect_intent q = "greeting") ∧
    pyContains (pyStrip (pyLower "which fund")) "hi" = true ∧
    detect_intent "which fund" = "greeting" ∧
    detect_intent "which fund" ≠ "mutual_fund" := by
  refine ⟨?_, by decide, by decide, by decide⟩
  intro q h1 h2
  have hcond : (greetings.any (fun greet => pyContains (pyStrip (pyLower q)) greet)
      && decide ((pySplit (pyStrip (pyLower q))).length ≤ 3)) = true := by
    simp [h1, h2]
  simp only [detect_intent]
  rw [if_pos hcond]

/-- Witness for `detect_intent_greeting_substring`: "which is better" contains
"hi" inside "which" and has 3 tokens, so the classifier calls it a greeting. -/
theorem detect_intent_greeting_substring_witness :
    detect_intent "which is better" = "greeting" :=
  detect_intent_greeting_substring.1 "which is better" (by decide) (by decide)

/-- C4: once the greeting/gratitude/casual rules have not fired, the
classifier is exactly a first-match scan of the topic keyword table in the
fixed priority order sip, tax, stocks, retirement, risk, debt, budget,
insurance, mutual_fund, emergency (so a query matching two topic keyword
sets resolves to the earlier one); in particular "sip vs stocks" → sip. -/
theorem detect_intent_topic_priority (q : String)
    (hg : ¬(greetings.any (fun greet => pyContains (pyStrip (pyLower q)) greet)
        && decide ((pySplit (pyStrip (pyLower q))).length ≤ 3)) = true)
    (ht : ¬(thanks.any (fun word => pyContains (pyStrip (pyLower q)) word)) = true)
    (hc : ¬(casual.any (fun phrase => pyContains (pyStrip (pyLower q)) phrase)) = true) :
    detect_intent q = firstTopicMatch (pyStrip (pyLower q)) ∧
    topicRules.map Prod.fst =
      ["sip", "tax", "stocks", "retirement", "risk", "debt", "budget", "insurance",
       "mutual_fund", "emergency"] ∧
    detect_intent "sip vs stocks" = "sip" := by
  refine ⟨?_, by decide, by decide⟩
  simp only [detect_intent, firstTopicMatch, topicRules]
  rw [if_neg hg, if_neg ht, if_neg hc]
  by_cases h1 : (["sip", "systematic investment", "monthly investment"].any
      (fun word => pyContains (pyStrip (pyLower q)) word)) = true
  · rw [if_pos h1, List.find?_cons_of_pos _ (by simpa using h1)]
    rfl
  rw [if_neg h1, List.find?_cons_of_neg _ (by simpa using h1)]
  by_cases h2 : (["tax", "80c", "deduction", "save tax"].any
      (fun word => pyContains (pyStrip (pyLower q)) word)) = true
  · rw [if_pos h2, List.find?_cons_of_pos _ (by simpa using h2)]
    rfl
  rw [if_neg h2, List.find?_cons_of_neg _ (by simpa using h2)]
  by_cases h3 : (["stock", "share", "equity", "nifty", "sensex"].any
      (fun word => pyContains (pyStrip (pyLower q)) word)) = true
  · rw [if_pos h3, List.find?_cons_of_pos _ (by simpa using h3)]
    rfl
  rw [if_neg h3, List.find?_cons_of_neg _ (by simpa using h3)]
  by_cases h4 : (["retire", "retirement", "pension"].any
      (fun word => pyContains (pyStrip (pyLower q)) word)) = true
  · rw [if_pos h4, List.find?_cons_of_pos _ (by simpa using h4)]
    rfl
  rw [if_neg h4, List.find?_cons_of_neg _ (by simpa using h4)]
  by_cases h5 : (["risk", "safe", "conservative", "aggressive"].any
      (fun word => pyContains (pyStrip (pyLower q)) word)) = true
  · rw [if_pos h5, List.find?_cons_of_pos _ (by simpa using h5)]
    rfl
  rw [if_neg h5, List.find?_cons_of_neg _ (by simpa using h5)]
  by_cases h6 : (["emi", "loan", "debt", "credit"].any
      (fun word => pyContains (pyStrip (pyLower q)) word)) = true
  · rw [if_pos h6, List.find?_cons_of_pos _ (by simpa using h6)]
    rfl
  rw [if_neg h6, List.find?_cons_of_neg _ (by simpa using h6)]
  by_cases h7 : (["budget", "save", "saving", "expense"].any
      (fun word => pyContains (pyStrip (pyLower q)) word)) = true
  · rw [if_pos h7, List.find?_cons_of_pos _ (by simpa using h7)]
    rfl
  rw [if_neg h7, List.find?_cons_of_neg _ (by simpa using h7)]
  by_cases h8 : (["insurance", "term", "health insurance"].any
      (fun word => pyContains (pyStrip (pyLower q)) word)) = true
  · rw [if_pos h8, List.find?_cons_of_pos _ (by simpa using h8)]
    rfl
  rw [if_neg h8, List.find?_cons_of_neg _ (by simpa using h8)]
  by_cases h9 : (["mutual fund", "mf", "fund"].any
      (fun word => pyContains (pyStrip (pyLower q)) word)) = true
  · rw [if_pos h9, List.find?_cons_of_pos _ (by simpa using h9)]
    rfl
  rw [if_neg h9, List.find?_cons_of_neg _ (by simpa using h9)]
  by_cases h10 : (["emergency", "emergency fund", "contingency"].any
      (fun word => pyContains (pyStrip (pyLower q)) word)) = true
  · rw [if_pos h10, List.find?_cons_of_pos _ (by simpa using h10)]
    rfl
  rw [if_neg h10, List.find?_cons_of_neg _ (by simpa using h10)]
  rfl

/-- Witness for `detect_intent_topic_priority` at "sip vs stocks", whose
normalization triggers none of the greeting/gratitude/casual rules. -/
theorem detect_intent_topic_priority_witness :
    detect_intent "sip vs stocks" =
      firstTopicMatch (pyStrip (pyLower "sip vs stocks")) :=
  (detect_intent_topic_priority "sip vs stocks" (by decide) (by decide) (by decide)).1
